import Mathlib

/-!
Shallow embedding of the battery-monitor core (batterymonitor.py) and proofs
about its tick, initialization, persistence and checkpoint logic.

Modelling conventions:
* Python floats are modelled as exact rationals (ℚ).
* `datetime` values are modelled by their value in seconds (ℚ); the `minute`
  field of a `datetime` is taken as a separate ℕ where the code reads it.
* Each call of `datetime.now()` inside one tick is a separate input field of
  the tick environment (`now1` for the call computing `this_time`, `now2` for
  the call inside `__update_dbus__`, `minute1` and `minute2` for the two
  `datetime.now().minute` reads in the checkpoint section).
* I/O failures (dbus exceptions, file-write exceptions) are oracle inputs of
  the tick environment: they say at which operation, if any, the underlying
  call raises. The observable I/O actions of a tick are collected in a list
  of events.
* `os._exit` and an exception escaping `update()` are distinct outcomes of
  the tick, since `update()` is a GLib timeout callback whose uncaught
  exception propagates to the event loop instead of terminating the process
  the way `os._exit(1)` does.
-/

/-- In-memory state of the monitor: the four dbus entity values
(`dbus_entities[...]["value"]`), `last_seen`, `is_historized` and
`values_refreshed`, as set up in `BatteryMonitor.__init__`. -/
structure BatteryState where
  voltage : ℚ
  current : ℚ
  charged : ℚ
  discharged : ℚ
  lastSeen : ℚ
  is_historized : Bool
  values_refreshed : Bool
deriving DecidableEq, Repr

/-- State right after `BatteryMonitor.__init__`: all entity values 0,
`is_historized = True`, `values_refreshed = False`. In the source
`last_seen` is `None` until `init()` assigns it; it is never read before
that assignment, so it is modelled as 0 here. -/
def initialState : BatteryState :=
  { voltage := 0
    current := 0
    charged := 0
    discharged := 0
    lastSeen := 0
    is_historized := true
    values_refreshed := false }

/-- Outcome of the dbus block of `__update_dbus__` (two `set_value` calls
followed by two `get_value` calls, in source order): either all four
succeed, or the exception is raised at one of the four calls, in which case
the earlier calls have already taken effect. -/
inductive BusOutcome where
  | ok
  | failWriteCharged
  | failWriteDischarged
  | failReadVoltage
  | failReadCurrent
deriving DecidableEq, Repr

/-- Outcome of `__save__` (write `index_charged`, then `index_discharged`):
both writes succeed, or the exception is raised while writing the first
file, or after the first file has been written. -/
inductive SaveOutcome where
  | ok
  | failCharged
  | failDischarged
deriving DecidableEq, Repr

/-- Environment of one `update()` call: sentinel presence, the wall-clock
readings, the values a successful dbus read returns, and the failure
oracles for the dbus block and for `__save__`. -/
structure TickEnv where
  killPresent : Bool
  now1 : ℚ
  now2 : ℚ
  minute1 : ℕ
  minute2 : ℕ
  busOutcome : BusOutcome
  busVoltage : ℚ
  busCurrent : ℚ
  saveOutcome : SaveOutcome
deriving DecidableEq, Repr

/-- Observable I/O actions of a tick or of `init()`. -/
inductive Event where
  | sentinelRemoved
  | savedCharged (q : ℚ)
  | savedDischarged (q : ℚ)
  | busWriteCharged (q : ℚ)
  | busWriteDischarged (q : ℚ)
  | busReadVoltage
  | busReadCurrent
  | processExit
deriving DecidableEq, Repr

/-- How one `update()` call ends: a normal return of `ret` to the GLib
loop, process termination via `os._exit(1)`, or an exception escaping
`update()` to its caller. Each constructor carries the in-memory state at
that point. -/
inductive TickResult where
  | cont (s : BatteryState) (ret : Bool)
  | exited (s : BatteryState)
  | raised (s : BatteryState)
deriving DecidableEq, Repr

/-- State carried by a tick outcome. -/
def afterState : TickResult → BatteryState
  | .cont s _ => s
  | .exited s => s
  | .raised s => s

/-- Lines 151-158 of `update()`: the energy computed for the elapsed
interval, 0 unless `values_refreshed` holds and the interval is positive. -/
def integrate (voltage current interval : ℚ) (valid : Bool) : ℚ :=
  if valid = true ∧ 0 < interval then voltage * current * interval / 3600000 else 0

/-- The energy a tick starting in state `s` under environment `env`
computes: `integrate` applied to the stored samples and the elapsed
interval `now1 - last_seen`. -/
def tickEnergy (s : BatteryState) (env : TickEnv) : ℚ :=
  integrate s.voltage s.current (env.now1 - s.lastSeen) s.values_refreshed

/-- `__update_dbus__`: write `charged` and `discharged` to the bus, read
`voltage` and `current` back; on an exception the remaining calls are
skipped, the error is logged and `success = False`; in every case
`last_seen` is refreshed after the try block. Returns the new state, the
`success` flag and the performed bus operations. -/
def update_dbus (s : BatteryState) (env : TickEnv) : BatteryState × Bool × List Event :=
  match env.busOutcome with
  | .ok =>
      ({ s with voltage := env.busVoltage, current := env.busCurrent, lastSeen := env.now2 },
       true,
       [.busWriteCharged s.charged, .busWriteDischarged s.discharged,
        .busReadVoltage, .busReadCurrent])
  | .failWriteCharged =>
      ({ s with lastSeen := env.now2 }, false, [])
  | .failWriteDischarged =>
      ({ s with lastSeen := env.now2 }, false, [.busWriteCharged s.charged])
  | .failReadVoltage =>
      ({ s with lastSeen := env.now2 }, false,
       [.busWriteCharged s.charged, .busWriteDischarged s.discharged])
  | .failReadCurrent =>
      ({ s with voltage := env.busVoltage, lastSeen := env.now2 }, false,
       [.busWriteCharged s.charged, .busWriteDischarged s.discharged, .busReadVoltage])

/-- The body of the try block of `update()` (lines 144-172): compute the
elapsed interval and refresh `last_seen`, integrate, route the energy to
one accumulator, run `__update_dbus__`, then the hourly checkpoint and the
latch reset. A `__save__` exception during the hourly checkpoint is caught
by the surrounding `except`, so in that case the remaining statements of
the try block are skipped and the partially performed saves are kept. -/
def tickCore (s : BatteryState) (env : TickEnv) : BatteryState × List Event :=
  let interval := env.now1 - s.lastSeen
  let energy := integrate s.voltage s.current interval s.values_refreshed
  let s1 : BatteryState :=
    { s with lastSeen := env.now1,
             values_refreshed :=
               if s.values_refreshed = true ∧ 0 < interval then false
               else s.values_refreshed }
  let s2 : BatteryState :=
    if 0 ≤ energy then { s1 with charged := s1.charged + energy }
    else { s1 with discharged := s1.discharged - energy }
  let rb := update_dbus s2 env
  let s3 : BatteryState := { rb.1 with values_refreshed := rb.2.1 }
  let ev := rb.2.2
  if env.minute1 = 0 ∧ s3.is_historized = false then
    match env.saveOutcome with
    | .failCharged => (s3, ev)
    | .failDischarged => (s3, ev ++ [.savedCharged s3.charged])
    | .ok =>
        let s4 : BatteryState := { s3 with is_historized := true }
        let s5 : BatteryState :=
          if env.minute2 ≠ 0 ∧ s4.is_historized = true then
            { s4 with is_historized := false }
          else s4
        (s5, ev ++ [.savedCharged s3.charged, .savedDischarged s3.discharged])
  else
    let s5 : BatteryState :=
      if env.minute2 ≠ 0 ∧ s3.is_historized = true then
        { s3 with is_historized := false }
      else s3
    (s5, ev)

/-- `update()` (lines 139-176): if the `kill` sentinel file exists it is
removed and `__soft_exit__` saves both indexes and calls `os._exit(1)`;
this block is outside the try/except, so a `__save__` failure there
escapes `update()`. Otherwise the try block runs, every exception inside
it is caught and logged, and `update()` returns `True`. -/
def update (s : BatteryState) (env : TickEnv) : TickResult × List Event :=
  if env.killPresent = true then
    match env.saveOutcome with
    | .ok =>
        (.exited s,
         [.sentinelRemoved, .savedCharged s.charged, .savedDischarged s.discharged,
          .processExit])
    | .failCharged => (.raised s, [.sentinelRemoved])
    | .failDischarged => (.raised s, [.sentinelRemoved, .savedCharged s.charged])
  else
    let r := tickCore s env
    (.cont r.1 true, r.2)

/-- Content of a persisted index file as `__read_index__` sees it: the
file is absent, or holds the decimal text of a number, or holds text that
`float()` rejects. -/
inductive FileContent where
  | absent
  | number (q : ℚ)
  | garbage
deriving DecidableEq, Repr

/-- `__read_index__`: `None` when the file does not exist, otherwise
`float(f.read())`, which raises a `ValueError` (not caught here) when the
content is not a valid number. -/
def read_index : FileContent → Except Unit (Option ℚ)
  | .absent => .ok none
  | .number q => .ok (some q)
  | .garbage => .error ()

/-- Environment of `init()`: the two persisted index files and the dbus
phase. A single `busOk` flag models the try block of `init()` (binding the
four dbus objects, the two writes, the two reads): any failure there is
caught by the `except` of `init()` and ends in `os._exit(1)`, so no
partially initialized state is observable. -/
structure InitEnv where
  chargedFile : FileContent
  dischargedFile : FileContent
  busOk : Bool
  busVoltage : ℚ
  busCurrent : ℚ
  now : ℚ
deriving DecidableEq, Repr

/-- How `init()` ends: success with the resulting state and bus events,
`os._exit(1)` from its `except` clause, or an exception (the `ValueError`
of `float()`) escaping `init()` itself, since the `__read_index__` calls
precede the try block. -/
inductive InitResult where
  | ok (s : BatteryState) (events : List Event)
  | exitedInit
  | raisedInit
deriving DecidableEq, Repr

/-- `init()` (lines 109-136): read the two index files, overwrite the
defaults with any float obtained, then bind the dbus objects, write both
accumulators to the bus, read voltage and current, set
`values_refreshed = True` and `last_seen = now`; any failure in that
second phase aborts the process. -/
def init (env : InitEnv) : InitResult :=
  match read_index env.chargedFile with
  | .error _ => .raisedInit
  | .ok ci =>
    let s1 : BatteryState :=
      match ci with
      | some q => { initialState with charged := q }
      | none => initialState
    match read_index env.dischargedFile with
    | .error _ => .raisedInit
    | .ok di =>
      let s2 : BatteryState :=
        match di with
        | some q => { s1 with discharged := q }
        | none => s1
      if env.busOk = true then
        .ok { s2 with voltage := env.busVoltage, current := env.busCurrent,
                      values_refreshed := true, lastSeen := env.now }
           [.busWriteCharged s2.charged, .busWriteDischarged s2.discharged,
            .busReadVoltage, .busReadCurrent]
      else .exitedInit

/-- The checkpoint condition of line 167: minute equal to 0 and
`is_historized` false. -/
def shouldCheckpoint (nowMinute : ℕ) (historized : Bool) : Bool :=
  nowMinute == 0 && !historized

/-- True exactly on the checkpoint file-write events. -/
def isSaveEvent : Event → Bool
  | .savedCharged _ => true
  | _ => false

/-- Number of checkpoint writes (of the `index_charged` file) in an event
list. -/
def saveCount (evs : List Event) : ℕ :=
  evs.countP isSaveEvent

/-- True exactly on the dbus read/write events. -/
def isBusEvent : Event → Bool
  | .busWriteCharged _ => true
  | .busWriteDischarged _ => true
  | .busReadVoltage => true
  | .busReadCurrent => true
  | _ => false

/-- A failure-free tick environment that observes minute `m` at both
minute reads, with the sentinel absent. -/
def envAtMinute (m : ℕ) : TickEnv :=
  { killPresent := false
    now1 := 0
    now2 := 0
    minute1 := m
    minute2 := m
    busOutcome := .ok
    busVoltage := 0
    busCurrent := 0
    saveOutcome := .ok }

/-- Run one failure-free tick per minute in the list and record how many
checkpoint writes each tick performed. -/
def runMinutes (s : BatteryState) : List ℕ → List ℕ
  | [] => []
  | m :: ms =>
      let r := update s (envAtMinute m)
      saveCount r.2 :: runMinutes (afterState r.1) ms


/-! ### Structural lemmas -/

theorem update_dbus_charged (s : BatteryState) (env : TickEnv) :
    (update_dbus s env).1.charged = s.charged := by
  cases h : env.busOutcome <;> simp [update_dbus, h]

theorem update_dbus_discharged (s : BatteryState) (env : TickEnv) :
    (update_dbus s env).1.discharged = s.discharged := by
  cases h : env.busOutcome <;> simp [update_dbus, h]

theorem update_dbus_historized (s : BatteryState) (env : TickEnv) :
    (update_dbus s env).1.is_historized = s.is_historized := by
  cases h : env.busOutcome <;> simp [update_dbus, h]

theorem update_dbus_success (s : BatteryState) (env : TickEnv) :
    (update_dbus s env).2.1 = decide (env.busOutcome = BusOutcome.ok) := by
  cases h : env.busOutcome <;> simp [update_dbus, h]

@[simp] theorem isSaveEvent_savedCharged (q : ℚ) :
    isSaveEvent (Event.savedCharged q) = true := rfl

@[simp] theorem isSaveEvent_savedDischarged (q : ℚ) :
    isSaveEvent (Event.savedDischarged q) = false := rfl

theorem update_dbus_countP_save (s : BatteryState) (env : TickEnv) :
    List.countP isSaveEvent (update_dbus s env).2.2 = 0 := by
  cases h : env.busOutcome <;> simp [update_dbus, h, isSaveEvent]

theorem update_dbus_saveCount (s : BatteryState) (env : TickEnv) :
    saveCount (update_dbus s env).2.2 = 0 :=
  update_dbus_countP_save s env

theorem update_cont (s : BatteryState) (env : TickEnv) (hk : env.killPresent = false) :
    update s env = (.cont (tickCore s env).1 true, (tickCore s env).2) := by
  simp [update, hk]

theorem tickCore_charged (s : BatteryState) (env : TickEnv) :
    (tickCore s env).1.charged =
      if 0 ≤ tickEnergy s env then s.charged + tickEnergy s env else s.charged := by
  unfold tickCore tickEnergy
  cases hsv : env.saveOutcome <;>
    simp only [hsv] <;>
    split_ifs <;>
    simp_all [update_dbus_charged]

theorem tickCore_discharged (s : BatteryState) (env : TickEnv) :
    (tickCore s env).1.discharged =
      if 0 ≤ tickEnergy s env then s.discharged else s.discharged - tickEnergy s env := by
  unfold tickCore tickEnergy
  cases hsv : env.saveOutcome <;>
    simp only [hsv] <;>
    split_ifs <;>
    simp_all [update_dbus_discharged]

theorem tickCore_latch (s : BatteryState) (env : TickEnv) (m : ℕ)
    (h1 : env.minute1 = m) (h2 : env.minute2 = m) (hs : env.saveOutcome = SaveOutcome.ok) :
    (tickCore s env).1.is_historized = decide (m = 0) := by
  unfold tickCore
  simp only [h1, h2, hs, update_dbus_historized]
  by_cases hm : m = 0 <;> cases hh : s.is_historized <;>
    split_ifs <;> simp_all [update_dbus_historized]

theorem tickCore_saveCount (s : BatteryState) (env : TickEnv)
    (hs : env.saveOutcome = SaveOutcome.ok) :
    saveCount (tickCore s env).2 =
      if env.minute1 = 0 ∧ s.is_historized = false then 1 else 0 := by
  unfold tickCore
  simp only [hs, update_dbus_historized]
  split_ifs with h h2 h3 <;>
    simp_all [saveCount, List.countP_append, List.countP_cons, update_dbus_countP_save]

/-! ### Concrete fixtures for witnesses and counterexamples -/

/-- A running state with a valid previous sample: 2 V, 450 A, accumulators
at 10 and 5, previous tick at time 0. -/
def sampleState : BatteryState :=
  { voltage := 2
    current := 450
    charged := 10
    discharged := 5
    lastSeen := 0
    is_historized := true
    values_refreshed := true }

/-- A failure-free tick 4000 seconds later, at minute 30. The computed
energy is 2 * 450 * 4000 / 3600000 = 1. -/
def sampleEnv : TickEnv :=
  { killPresent := false
    now1 := 4000
    now2 := 4000
    minute1 := 30
    minute2 := 30
    busOutcome := .ok
    busVoltage := 48
    busCurrent := -20
    saveOutcome := .ok }

/-! ### Claim theorems -/

/-- Claim C1: on a tick (sentinel absent), if the previous bus read
succeeded and the elapsed time is strictly positive, the computed energy
delta is voltage * current * elapsedSeconds / 3600000 from the stored
samples; otherwise the delta is exactly 0 and neither accumulator
changes. -/
theorem C1_energy_delta (s : BatteryState) (env : TickEnv)
    (hk : env.killPresent = false) :
    (s.values_refreshed = true → 0 < env.now1 - s.lastSeen →
      tickEnergy s env = s.voltage * s.current * (env.now1 - s.lastSeen) / 3600000)
    ∧ ((s.values_refreshed = false ∨ env.now1 - s.lastSeen ≤ 0) →
      tickEnergy s env = 0
      ∧ (afterState (update s env).1).charged = s.charged
      ∧ (afterState (update s env).1).discharged = s.discharged) := by
  constructor
  · intro hv hi
    simp [tickEnergy, integrate, hv, hi]
  · intro h
    have he : tickEnergy s env = 0 := by
      rcases h with h | h
      · simp [tickEnergy, integrate, h]
      · have hni : ¬ (0 < env.now1 - s.lastSeen) := not_lt.mpr h
        simp [tickEnergy, integrate, hni]
    refine ⟨he, ?_, ?_⟩
    · rw [update_cont s env hk]
      simp [afterState, tickCore_charged, he]
    · rw [update_cont s env hk]
      simp [afterState, tickCore_discharged, he]

theorem C1_energy_delta_witness :
    tickEnergy sampleState sampleEnv
      = sampleState.voltage * sampleState.current
        * (sampleEnv.now1 - sampleState.lastSeen) / 3600000 :=
  (C1_energy_delta sampleState sampleEnv rfl).1 rfl (by norm_num [sampleEnv, sampleState])

/-- Claim C2: each tick routes its energy delta to at most one
accumulator: a delta of at least 0 is added to the charged accumulator and
the discharged one is unchanged, a negative delta adds its absolute value
to the discharged accumulator and leaves the charged one unchanged, and a
zero delta leaves both numerically unchanged. -/
theorem C2_routing (s : BatteryState) (env : TickEnv)
    (hk : env.killPresent = false) :
    (0 ≤ tickEnergy s env →
      (afterState (update s env).1).charged = s.charged + tickEnergy s env
      ∧ (afterState (update s env).1).discharged = s.discharged)
    ∧ (tickEnergy s env < 0 →
      (afterState (update s env).1).discharged = s.discharged + (- tickEnergy s env)
      ∧ (afterState (update s env).1).charged = s.charged)
    ∧ (tickEnergy s env = 0 →
      (afterState (update s env).1).charged = s.charged
      ∧ (afterState (update s env).1).discharged = s.discharged) := by
  rw [update_cont s env hk]
  refine ⟨?_, ?_, ?_⟩
  · intro h
    simp [afterState, tickCore_charged, tickCore_discharged, h]
  · intro h
    have hn : ¬ (0 ≤ tickEnergy s env) := not_le.mpr h
    constructor
    · simp [afterState, tickCore_discharged, hn]
      ring
    · simp [afterState, tickCore_charged, hn]
  · intro h
    simp [afterState, tickCore_charged, tickCore_discharged, h]

theorem C2_routing_witness :
    (afterState (update sampleState sampleEnv).1).charged
        = sampleState.charged + tickEnergy sampleState sampleEnv
      ∧ (afterState (update sampleState sampleEnv).1).discharged
        = sampleState.discharged :=
  (C2_routing sampleState sampleEnv rfl).1
    (by norm_num [tickEnergy, integrate, sampleState, sampleEnv])

/-- Claim C8: the two accumulators are monotonically non-decreasing across
every tick, whatever the environment (sentinel, bus failures, save
failures, clock values). -/
theorem C8_monotone (s : BatteryState) (env : TickEnv) :
    s.charged ≤ (afterState (update s env).1).charged
    ∧ s.discharged ≤ (afterState (update s env).1).discharged := by
  by_cases hk : env.killPresent = true
  · unfold update
    rw [if_pos hk]
    cases hs : env.saveOutcome <;> simp [afterState]
  · rw [update_cont s env (by simpa using hk)]
    simp only [afterState, tickCore_charged, tickCore_discharged]
    constructor
    · split_ifs with h
      · linarith
      · exact le_refl _
    · split_ifs with h
      · exact le_refl _
      · have := not_le.mp h
        linarith

/-- Claim C10: whenever `update()` returns to the GLib loop (instead of
exiting the process or raising), the returned value is `True`, so the
periodic timer callback never cancels itself. -/
theorem C10_returns_true (s : BatteryState) (env : TickEnv)
    (t : BatteryState) (b : Bool)
    (h : (update s env).1 = TickResult.cont t b) : b = true := by
  by_cases hk : env.killPresent = true
  · unfold update at h
    rw [if_pos hk] at h
    cases hs : env.saveOutcome <;> rw [hs] at h <;> simp at h
  · rw [update_cont s env (by simpa using hk)] at h
    simp at h
    exact h.2

theorem C10_returns_true_witness : (true : Bool) = true :=
  C10_returns_true sampleState sampleEnv (tickCore sampleState sampleEnv).1 true
    (by rw [update_cont sampleState sampleEnv rfl])

theorem tickCore_refreshed (s : BatteryState) (env : TickEnv) :
    (tickCore s env).1.values_refreshed = decide (env.busOutcome = BusOutcome.ok) := by
  unfold tickCore
  cases hsv : env.saveOutcome <;> simp only [hsv] <;> split_ifs <;>
    simp_all [update_dbus_success]

theorem tickCore_busRead (s : BatteryState) (env : TickEnv)
    (hb : env.busOutcome = BusOutcome.ok) :
    Event.busReadVoltage ∈ (tickCore s env).2 := by
  unfold tickCore
  cases hsv : env.saveOutcome <;> simp only [hsv] <;> split_ifs <;>
    simp_all [update_dbus, hb]

/-- Claim C3: within one clock hour a checkpoint write happens exactly
when the observed minute is 0 and the latch is false; the latch is true
after any minute-0 tick (in particular when the checkpoint fires) and
turns false again only on a tick observing a minute other than 0, so at
most one checkpoint occurs per clock hour; for ticks at minutes
[59, 0, 0, 1] starting with the latch false, exactly one checkpoint
fires, at the first minute-0 tick. -/
theorem C3_hourly_checkpoint (s : BatteryState) (env : TickEnv) (m : ℕ)
    (hk : env.killPresent = false) (h1 : env.minute1 = m) (h2 : env.minute2 = m)
    (hs : env.saveOutcome = SaveOutcome.ok) :
    (saveCount (update s env).2 = if shouldCheckpoint m s.is_historized = true then 1 else 0)
    ∧ (shouldCheckpoint m s.is_historized = true ↔ m = 0 ∧ s.is_historized = false)
    ∧ (shouldCheckpoint m s.is_historized = true →
        (afterState (update s env).1).is_historized = true)
    ∧ ((afterState (update s env).1).is_historized = true → s.is_historized = false →
        m = 0 ∧ saveCount (update s env).2 = 1)
    ∧ ((afterState (update s env).1).is_historized = false → s.is_historized = true → m ≠ 0)
    ∧ runMinutes { initialState with is_historized := false } [59, 0, 0, 1] = [0, 1, 0, 0] := by
  rw [update_cont s env hk]
  simp only [afterState]
  rw [tickCore_latch s env m h1 h2 hs, tickCore_saveCount s env hs, h1]
  refine ⟨?_, ?_, ?_, ?_, ?_, ?_⟩
  · by_cases hm : m = 0 <;> cases hh : s.is_historized <;>
      simp [shouldCheckpoint, hm, hh]
  · by_cases hm : m = 0 <;> cases hh : s.is_historized <;>
      simp [shouldCheckpoint, hm, hh]
  · intro hcp
    have hm : m = 0 := by
      by_cases hm : m = 0
      · exact hm
      · simp [shouldCheckpoint, hm] at hcp
    simp [hm]
  · intro hl hh
    have hm : m = 0 := by simpa using hl
    exact ⟨hm, by simp [hm, hh]⟩
  · intro hl hh hm
    simp [hm] at hl
  · norm_num [runMinutes, update, tickCore, update_dbus, envAtMinute, afterState,
      saveCount, integrate, initialState, isSaveEvent, List.countP, List.countP.go]

theorem C3_hourly_checkpoint_witness :
    saveCount (update { sampleState with is_historized := false } (envAtMinute 0)).2 = 1 := by
  have h := (C3_hourly_checkpoint { sampleState with is_historized := false }
    (envAtMinute 0) 0 rfl rfl rfl rfl).1
  simpa [shouldCheckpoint] using h

/-- Claim C5: after a successful `init()`, the in-memory accumulators
equal the persisted index values when the files are present and parse as
floats, the default (0) is kept for any absent file, and both accumulator
values are written to the bus (first two bus operations) before the first
tick runs. -/
theorem C5_resume (env : InitEnv) (hb : env.busOk = true)
    (hc : env.chargedFile ≠ FileContent.garbage)
    (hd : env.dischargedFile ≠ FileContent.garbage) :
    init env = InitResult.ok
      { voltage := env.busVoltage
        current := env.busCurrent
        charged := (match env.chargedFile with
          | FileContent.number q => q
          | _ => initialState.charged)
        discharged := (match env.dischargedFile with
          | FileContent.number q => q
          | _ => initialState.discharged)
        lastSeen := env.now
        is_historized := true
        values_refreshed := true }
      [Event.busWriteCharged (match env.chargedFile with
          | FileContent.number q => q
          | _ => initialState.charged),
       Event.busWriteDischarged (match env.dischargedFile with
          | FileContent.number q => q
          | _ => initialState.discharged),
       Event.busReadVoltage, Event.busReadCurrent] := by
  cases hcf : env.chargedFile <;> cases hdf : env.dischargedFile <;>
    simp_all [init, read_index, initialState]

/-- Environment for the resume scenario: persisted 12.5 and 3.25. -/
def c5env : InitEnv :=
  { chargedFile := .number 12.5
    dischargedFile := .number 3.25
    busOk := true
    busVoltage := 48
    busCurrent := -20
    now := 25 }

theorem C5_resume_witness :
    init c5env = InitResult.ok
      { voltage := 48, current := -20, charged := 12.5, discharged := 3.25,
        lastSeen := 25, is_historized := true, values_refreshed := true }
      [Event.busWriteCharged 12.5, Event.busWriteDischarged 3.25,
       Event.busReadVoltage, Event.busReadCurrent] := by
  have h := C5_resume c5env rfl (by simp [c5env]) (by simp [c5env])
  simpa [c5env] using h

/-- Claim C6: a tick that finds the shutdown sentinel performs exactly one
checkpoint write of both accumulators, removes the sentinel, and
terminates the process within that tick, with no bus read or write
performed. -/
theorem C6_sentinel (s : BatteryState) (env : TickEnv)
    (hk : env.killPresent = true) (hs : env.saveOutcome = SaveOutcome.ok) :
    update s env = (TickResult.exited s,
      [Event.sentinelRemoved, Event.savedCharged s.charged,
       Event.savedDischarged s.discharged, Event.processExit])
    ∧ saveCount (update s env).2 = 1
    ∧ (update s env).2.countP isBusEvent = 0 := by
  refine ⟨?_, ?_, ?_⟩ <;>
    simp [update, hk, hs, saveCount, List.countP_cons, isSaveEvent, isBusEvent]

/-- Tick environment with the sentinel present and the save succeeding. -/
def c6env : TickEnv := { sampleEnv with killPresent := true }

theorem C6_sentinel_witness :
    update sampleState c6env = (TickResult.exited sampleState,
      [Event.sentinelRemoved, Event.savedCharged 10, Event.savedDischarged 5,
       Event.processExit]) := by
  have h := (C6_sentinel sampleState c6env rfl rfl).1
  simpa [sampleState] using h

/-- Claim C7: `__read_index__` returns `None` when the file is absent, the
parsed float when the content is a valid number, and raises a parse error
otherwise; that error is not caught inside the read, and during `init()`
it escapes `init()` itself (the reads precede the try block), so `init()`
never completes and the process dies on the uncaught exception. -/
theorem C7_read_index (q : ℚ) (env : InitEnv) :
    read_index FileContent.absent = Except.ok none
    ∧ read_index (FileContent.number q) = Except.ok (some q)
    ∧ read_index FileContent.garbage = Except.error ()
    ∧ (env.chargedFile = FileContent.garbage → init env = InitResult.raisedInit)
    ∧ (env.dischargedFile = FileContent.garbage → init env = InitResult.raisedInit) := by
  refine ⟨rfl, rfl, rfl, ?_, ?_⟩
  · intro h
    simp [init, h, read_index]
  · intro h
    cases hc : env.chargedFile <;> simp [init, hc, h, read_index]

/-- Environment whose persisted charged index is corrupt. -/
def c7env : InitEnv :=
  { chargedFile := .garbage
    dischargedFile := .absent
    busOk := true
    busVoltage := 0
    busCurrent := 0
    now := 0 }

theorem C7_read_index_witness : init c7env = InitResult.raisedInit :=
  (C7_read_index 1 c7env).2.2.2.1 rfl

/-- Tick environment identical to `sampleEnv` except that the dbus read of
the voltage raises. -/
def c4env : TickEnv := { sampleEnv with busOutcome := .failReadVoltage }

/-- Claim C4 as stated is false on the code: in a tick whose bus access
fails, the accumulators are not necessarily left unchanged, because the
integration of the previous valid sample happens before the bus access.
Here the failing tick still adds 2 * 450 * 4000 / 3600000 = 1 to the
charged accumulator, moving it from 10 to 11. -/
theorem C4_counterexample :
    c4env.busOutcome ≠ BusOutcome.ok
    ∧ sampleState.charged = 10
    ∧ (afterState (update sampleState c4env).1).charged = 11 := by
  refine ⟨by simp [c4env, sampleEnv], rfl, ?_⟩
  have he : tickEnergy sampleState c4env = 1 := by
    norm_num [tickEnergy, integrate, sampleState, c4env, sampleEnv]
  rw [update_cont sampleState c4env rfl]
  simp only [afterState, tickCore_charged, he]
  norm_num [sampleState]

/-- Claim C4 amended: a tick whose bus access fails returns normally, sets
`values_refreshed` to false, and the immediately following tick (sentinel
absent) computes an energy delta of exactly 0 regardless of its elapsed
interval, leaves both accumulators unchanged, and attempts a fresh bus
access; the accumulators of the failing tick itself, however, may already
have changed through integration of the previous valid sample. -/
theorem C4_bus_failure (s : BatteryState) (env env2 : TickEnv)
    (hk : env.killPresent = false) (hb : env.busOutcome ≠ BusOutcome.ok)
    (hk2 : env2.killPresent = false) :
    (update s env).1 = TickResult.cont (tickCore s env).1 true
    ∧ (tickCore s env).1.values_refreshed = false
    ∧ tickEnergy (tickCore s env).1 env2 = 0
    ∧ (afterState (update (tickCore s env).1 env2).1).charged
        = (tickCore s env).1.charged
    ∧ (afterState (update (tickCore s env).1 env2).1).discharged
        = (tickCore s env).1.discharged
    ∧ (env2.busOutcome = BusOutcome.ok →
        Event.busReadVoltage ∈ (update (tickCore s env).1 env2).2) := by
  have hr : (tickCore s env).1.values_refreshed = false := by
    simp [tickCore_refreshed, hb]
  have he : tickEnergy (tickCore s env).1 env2 = 0 := by
    simp [tickEnergy, integrate, hr]
  refine ⟨by rw [update_cont s env hk], hr, he, ?_, ?_, ?_⟩
  · rw [update_cont _ env2 hk2]
    simp [afterState, tickCore_charged, he]
  · rw [update_cont _ env2 hk2]
    simp [afterState, tickCore_discharged, he]
  · intro hb2
    rw [update_cont _ env2 hk2]
    exact tickCore_busRead _ env2 hb2

theorem C4_bus_failure_witness :
    (tickCore sampleState c4env).1.values_refreshed = false
    ∧ tickEnergy (tickCore sampleState c4env).1 sampleEnv = 0 := by
  have h := C4_bus_failure sampleState c4env sampleEnv rfl
    (by simp [c4env, sampleEnv]) rfl
  exact ⟨h.2.1, h.2.2.1⟩

/-- Tick environment with the sentinel present and the write of
`index_charged` in `__save__` raising. -/
def c9env : TickEnv := { sampleEnv with killPresent := true, saveOutcome := .failCharged }

/-- Claim C9 as stated is false on the code: the sentinel block of
`update()` (lines 140-143) is outside the try/except, so a `__save__`
failure inside `__soft_exit__` propagates out of `update()` to its caller
without the process terminating through `os._exit`. -/
theorem C9_counterexample :
    (update sampleState c9env).1 = TickResult.raised sampleState := by
  simp [update, c9env, sampleEnv]

/-- Claim C9 amended: every failure raised inside the main body of a tick
is handled within the tick (the tick returns `True`); when the sentinel is
present and the final save succeeds, the tick deliberately terminates the
process; the only way an exception escapes `update()` is a save failure
on the sentinel path. -/
theorem C9_no_escape (s : BatteryState) (env : TickEnv) :
    (env.killPresent = false → (update s env).1 = TickResult.cont (tickCore s env).1 true)
    ∧ (env.killPresent = true → env.saveOutcome = SaveOutcome.ok →
        (update s env).1 = TickResult.exited s)
    ∧ (∀ t, (update s env).1 = TickResult.raised t →
        env.killPresent = true ∧ env.saveOutcome ≠ SaveOutcome.ok) := by
  refine ⟨?_, ?_, ?_⟩
  · intro hk
    rw [update_cont s env hk]
  · intro hk hs
    simp [update, hk, hs]
  · intro t h
    by_cases hk : env.killPresent = true
    · refine ⟨hk, fun hs => ?_⟩
      simp [update, hk, hs] at h
    · rw [update_cont s env (by simpa using hk)] at h
      simp at h

theorem C9_no_escape_witness :
    (update sampleState sampleEnv).1
      = TickResult.cont (tickCore sampleState sampleEnv).1 true :=
  (C9_no_escape sampleState sampleEnv).1 rfl
